import Mathlib

/-!
Verification of the calibration-propagation catalog in nion/data/Core.py.

Shallow embedding conventions:
* Machine floats are modelled as rationals (ℚ); the claims under study are
  about exact calibration arithmetic, never about rounding.
* A dense numpy array is modelled as a shape together with an index
  function `List ℕ → ℚ`.
* Python's dual failure channels are modelled by `Res`: a function that
  `return None` yields `.absent`, an uncaught exception yields `.exn`.
* The external numeric kernel (scipy/numpy FFTs and filters, declared an
  external collaborator by the spec) is a `Kernel` parameter; the catalog
  code never inspects the values those primitives produce.
* Evaluation timing of the payload is made observable by threading an
  explicit counter of kernel invocations through the entries whose claims
  concern deferral (`function_fft`, `function_scalar`).
-/

namespace NionData

/-- Supported element dtypes (spec §3); the color-image dtype is `uint8`. -/
inductive DType where
  | uint8
  | int32
  | float64
  | complex128
deriving DecidableEq

/-- Calibration value type (external, consumed and produced by the core):
offset, scale and a unit string, compared fieldwise. -/
structure Calibration where
  offset : ℚ
  scale : ℚ
  units : String
deriving DecidableEq

/-- The uncalibrated calibration (0, 1, ""), `Calibration.Calibration()`. -/
def uncalibrated : Calibration := ⟨0, 1, ""⟩

/-- A dense numpy array: shape, dtype, and the element at each index. -/
structure NDArray where
  shape : List ℕ
  dtype : DType
  data : List ℕ → ℚ

/-- Free-form metadata mapping, carried through opaquely. -/
def Metadata := List (String × String)

/-- The Calibrated Array Value of spec §3 (timestamps omitted: no claim
mentions them and they are an external clock read). -/
structure DataAndMetadata where
  data : Option NDArray
  data_shape : List ℕ
  data_dtype : DType
  intensity_calibration : Calibration
  dimensional_calibrations : Option (List Calibration)
  metadata : Metadata

/-- ScalarAndMetadata: payload is a deferred zero-argument computation. -/
structure ScalarAndMetadata where
  value_fn : Unit → Option ℚ
  intensity_calibration : Calibration
  metadata : Metadata

/-- Python exception kinds raised by the catalog or the kernels it calls. -/
inductive PyEx where
  | assertionError
  | notImplementedError
  | valueError
  | typeError
  | indexError
deriving DecidableEq

/-- Outcome of a Python call: a value, a `return None`, or a raise. -/
inductive Res (α : Type _) where
  | ok (a : α)
  | absent
  | exn (e : PyEx)

/-- Forget the distinction between an absent value and a raise. -/
def Res.toOption {α : Type _} : Res α → Option α
  | .ok a => some a
  | _ => none

/-- Payload of a successfully returned result. -/
def resultData : Res DataAndMetadata → Option NDArray
  | .ok dm => dm.data
  | _ => none

/-- Dimensional calibrations of a successfully returned result. -/
def resultCals : Res DataAndMetadata → Option (List Calibration)
  | .ok dm => dm.dimensional_calibrations
  | _ => none

/-- Intensity calibration of a successfully returned result. -/
def resultIntensity : Res DataAndMetadata → Option Calibration
  | .ok dm => some dm.intensity_calibration
  | _ => none

/-- Shape of the payload of a successfully returned result. -/
def resultShape (r : Res DataAndMetadata) : Option (List ℕ) :=
  (resultData r).map NDArray.shape

/-- Element of the payload of a successfully returned result. -/
def resultGet (r : Res DataAndMetadata) (idx : List ℕ) : Option ℚ :=
  (resultData r).map (fun a => a.data idx)

/-- Python `int()` applied to a float: truncation toward zero. -/
def pytrunc (q : ℚ) : ℤ := if 0 ≤ q then ⌊q⌋ else ⌈q⌉

/-- Modelled from the spec: `Image.is_shape_and_dtype_rgb` (nion/data/Image.py
is not under src/) — a 2-D RGB image is a rank-3 array whose trailing axis
has extent 3 with dtype uint8 (spec §3). -/
def is_shape_and_dtype_rgb (shape : List ℕ) (dtype : DType) : Bool :=
  dtype == .uint8 && shape.length == 3 && shape.getLast? == some 3

/-- Modelled from the spec: `Image.is_shape_and_dtype_rgba` — trailing axis
of extent 4 with dtype uint8 (spec §3). -/
def is_shape_and_dtype_rgba (shape : List ℕ) (dtype : DType) : Bool :=
  dtype == .uint8 && shape.length == 3 && shape.getLast? == some 4

/-- Modelled from the spec: `Image.is_shape_and_dtype_rgb_type`. -/
def is_shape_and_dtype_rgb_type (shape : List ℕ) (dtype : DType) : Bool :=
  is_shape_and_dtype_rgb shape dtype || is_shape_and_dtype_rgba shape dtype

/-- Modelled from the spec: `Image.is_shape_and_dtype_valid` — non-zero
extents in every axis and a dtype in the supported set (spec §3; every
constructor of `DType` here is in the supported set). -/
def is_shape_and_dtype_valid (shape : List ℕ) (dtype : DType) : Bool :=
  !shape.isEmpty && shape.all (fun n => n != 0) &&
    (dtype == dtype || is_shape_and_dtype_rgb_type shape dtype)

/-- Modelled from the spec: `Image.dimensional_shape_from_shape_and_dtype` —
the data-axis shape, excluding a trailing color-channel axis (spec §3). -/
def dimensional_shape_from_shape_and_dtype (shape : List ℕ) (dtype : DType) : List ℕ :=
  if is_shape_and_dtype_rgb_type shape dtype then shape.dropLast else shape

/-- Modelled from the spec: `Image.is_data_valid` — payload present and of
valid shape and dtype. -/
def is_data_valid : Option NDArray → Bool
  | some a => is_shape_and_dtype_valid a.shape a.dtype
  | none => false

/-- Modelled from the spec: `Image.is_data_1d` — one data axis. -/
def is_data_1d (a : NDArray) : Bool :=
  (dimensional_shape_from_shape_and_dtype a.shape a.dtype).length == 1

/-- Modelled from the spec: `Image.is_data_2d` — two data axes. -/
def is_data_2d (a : NDArray) : Bool :=
  (dimensional_shape_from_shape_and_dtype a.shape a.dtype).length == 2

/-- Modelled from the spec: `DataAndMetadata.new_data_and_metadata`
(nion/data/DataAndMetadata.py is not under src/) — packages a (possibly
absent) payload with an intensity calibration, dimensional calibrations and
metadata into a Calibrated Array Value; shape and dtype are recorded from
the payload (spec §3, §6). -/
def new_data_and_metadata (data : Option NDArray) (ic : Calibration)
    (dc : Option (List Calibration)) (md : Metadata) : DataAndMetadata :=
  ⟨data,
   match data with | some a => a.shape | none => [],
   match data with | some a => a.dtype | none => .float64,
   ic, dc, md⟩

/-- The external numeric kernel (spec §6), one field per primitive the
embedded catalog entries call.  `fft1` stands for the whole composite
`fftshift(fft(data) * 1/sqrt(n))` of Core.function_fft's 1-D branch, and
similarly for the other Fourier fields; `line_profile_data` stands for the
whole floating-point sampling pipeline of Core.function_line_profile's
`calculate_data`. -/
structure Kernel where
  fft1 : NDArray → NDArray
  fft2 : NDArray → NDArray
  ifft1 : NDArray → NDArray
  ifft2 : NDArray → NDArray
  sobel : NDArray → NDArray
  laplace : NDArray → NDArray
  gaussian_filter : ℚ → NDArray → NDArray
  median_filter : ℤ → NDArray → NDArray
  uniform_filter : ℤ → NDArray → NDArray
  line_profile_data : NDArray → (ℚ × ℚ) × (ℚ × ℚ) → ℤ → NDArray

/-- A trivial kernel instance (each primitive keeps the array), used to
evaluate the embedding at concrete inputs. -/
def modelKernel : Kernel :=
  ⟨fun a => a, fun a => a, fun a => a, fun a => a, fun a => a, fun a => a,
   fun _ a => a, fun _ a => a, fun _ a => a, fun a _ _ => a⟩

/-- Core.function_fft's `calculate_data`, together with the number of kernel
invocations it performs (1-D and 2-D branches invoke the FFT pipeline once;
the other branches never reach the kernel). -/
def fft_calculate_data (k : Kernel) (dm : DataAndMetadata) : Res NDArray × ℕ :=
  match dm.data with
  | none => (.absent, 0)
  | some a =>
    if !is_shape_and_dtype_valid a.shape a.dtype then (.absent, 0)
    else if is_data_1d a then (.ok (k.fft1 a), 1)
    else if is_data_2d a then (.ok (k.fft2 a), 1)
    else (.exn .notImplementedError, 0)

/-- The per-axis output calibration of Core.function_fft (line 144): offset
`-0.5/scale`, scale `1/(scale*n)`, units `"1/" + units`. -/
def fft_dimensional_calibration (c : Calibration) (n : ℕ) : Calibration :=
  ⟨-(1/2) / c.scale, 1 / (c.scale * (n : ℚ)), "1/" ++ c.units⟩

/-- Core.function_fft: guard shape/dtype validity and presence of the
dimensional calibrations (absent result on failure), assert the calibration
count matches the dimensional rank, map each axis calibration through
`fft_dimensional_calibration`, reset the intensity calibration, and package
the eagerly computed payload.  The second component counts the kernel
invocations performed during the call itself. -/
def function_fft (k : Kernel) (dm : DataAndMetadata) : Res DataAndMetadata × ℕ :=
  match dm.dimensional_calibrations with
  | none => (.absent, 0)
  | some src_cals =>
    if !is_shape_and_dtype_valid dm.data_shape dm.data_dtype then (.absent, 0)
    else if src_cals.length != (dimensional_shape_from_shape_and_dtype dm.data_shape dm.data_dtype).length then
      (.exn .assertionError, 0)
    else
      let cals := List.zipWith fft_dimensional_calibration src_cals dm.data_shape
      match fft_calculate_data k dm with
      | (.exn e, m) => (.exn e, m)
      | (r, m) => (.ok (new_data_and_metadata r.toOption uncalibrated (some cals) []), m)

/-- Core.function_ifft's `remove_one_slash`: strip a leading "1/" when
present, else prepend "1/". -/
def remove_one_slash (s : String) : String :=
  match s.data with
  | '1' :: '/' :: rest => String.mk rest
  | _ => "1/" ++ s

/-- The per-axis output calibration of Core.function_ifft (line 185): offset
0, scale `1/(scale*n)`, units through `remove_one_slash`. -/
def ifft_dimensional_calibration (c : Calibration) (n : ℕ) : Calibration :=
  ⟨0, 1 / (c.scale * (n : ℚ)), remove_one_slash c.units⟩

/-- Core.function_ifft's `calculate_data`. -/
def ifft_calculate_data (k : Kernel) (dm : DataAndMetadata) : Res NDArray :=
  match dm.data with
  | none => .absent
  | some a =>
    if !is_shape_and_dtype_valid a.shape a.dtype then .absent
    else if is_data_1d a then .ok (k.ifft1 a)
    else if is_data_2d a then .ok (k.ifft2 a)
    else .exn .notImplementedError

/-- Core.function_ifft: identical structure to `function_fft`, with the
inverse calibration rule. -/
def function_ifft (k : Kernel) (dm : DataAndMetadata) : Res DataAndMetadata :=
  match dm.dimensional_calibrations with
  | none => .absent
  | some src_cals =>
    if !is_shape_and_dtype_valid dm.data_shape dm.data_dtype then .absent
    else if src_cals.length != (dimensional_shape_from_shape_and_dtype dm.data_shape dm.data_dtype).length then
      .exn .assertionError
    else
      let cals := List.zipWith ifft_dimensional_calibration src_cals dm.data_shape
      match ifft_calculate_data k dm with
      | .exn e => .exn e
      | r => .ok (new_data_and_metadata r.toOption uncalibrated (some cals) [])

/-- The units list of a successfully returned result's calibrations. -/
def unitsOf (r : Res DataAndMetadata) : Option (List String) :=
  (resultCals r).map (List.map Calibration.units)

/-- The round trip of spec §8: forward Fourier transform, then inverse. -/
def fft_then_ifft (k : Kernel) (dm : DataAndMetadata) : Res DataAndMetadata :=
  match (function_fft k dm).1 with
  | .ok mid => function_ifft k mid
  | .absent => .absent
  | .exn e => .exn e

/-- A 4x4 float array of ones. -/
def arr4 : NDArray := ⟨[4, 4], .float64, fun _ => 1⟩

/-- The concrete scenario of spec §8: a 4x4 array, both axes calibrated
(0, 1, "nm"). -/
def dm4 : DataAndMetadata :=
  ⟨some arr4, [4, 4], .float64, uncalibrated, some [⟨0, 1, "nm"⟩, ⟨0, 1, "nm"⟩], []⟩

/-- Core.function_scalar: packages the reduction `op` as a stored
zero-argument computation (`lambda: calculate_value()` in the source); no
evaluation of `op` happens at construction, so the construction performs 0
kernel invocations (second component). -/
def function_scalar (op : NDArray → ℚ) (dm : DataAndMetadata) : ScalarAndMetadata × ℕ :=
  (⟨fun _ => dm.data.map op, dm.intensity_calibration, dm.metadata⟩, 0)

/-- Python slice-bound normalization: `a[i:j]` clamps each bound into
[0, len], counting negative bounds from the end. -/
def pyslice_bound (len : ℕ) (i : ℤ) : ℕ :=
  if i < 0 then (max 0 ((len : ℤ) + i)).toNat else min i.toNat len

/-- The 1-D slice-and-copy `data[lo:hi].copy()`. -/
def slice1d (a : NDArray) (lo hi : ℤ) : NDArray :=
  ⟨[pyslice_bound (a.shape.getD 0 0) hi - pyslice_bound (a.shape.getD 0 0) lo], a.dtype,
   fun idx => a.data [pyslice_bound (a.shape.getD 0 0) lo + idx.getD 0 0]⟩

/-- The 2-D slice-and-copy `data[r0:r1, c0:c1].copy()`. -/
def slice2d (a : NDArray) (r0 r1 c0 c1 : ℤ) : NDArray :=
  ⟨[pyslice_bound (a.shape.getD 0 0) r1 - pyslice_bound (a.shape.getD 0 0) r0,
    pyslice_bound (a.shape.getD 1 0) c1 - pyslice_bound (a.shape.getD 1 0) c0], a.dtype,
   fun idx => a.data [pyslice_bound (a.shape.getD 0 0) r0 + idx.getD 0 0,
                      pyslice_bound (a.shape.getD 1 0) c0 + idx.getD 1 0]⟩

/-- Python tuple indexing of a fractional-bounds pair: index 2 or more
raises IndexError. -/
def pair_index (b0 : ℚ × ℚ) (i : ℕ) : Res ℚ :=
  match i with
  | 0 => .ok b0.1
  | 1 => .ok b0.2
  | _ => .exn .indexError

/-- The calibration loop of Core.function_crop (lines 493-498): each axis
offset becomes `offset + shape[index] * bounds[0][index] * scale`, scale and
units unchanged. -/
def crop_calibrations (shape : List ℕ) (b0 : ℚ × ℚ) : ℕ → List Calibration → Res (List Calibration)
  | _, [] => .ok []
  | i, c :: cals =>
    match pair_index b0 i with
    | .exn e => .exn e
    | .absent => .absent
    | .ok b =>
      match crop_calibrations shape b0 (i + 1) cals with
      | .exn e => .exn e
      | .absent => .absent
      | .ok rest =>
        .ok (⟨c.offset + (shape.getD i 0 : ℚ) * b * c.scale, c.scale, c.units⟩ :: rest)

/-- Core.function_crop's `calculate_data`: convert the fractional bounds to
integer pixel bounds with `int(shape * fraction)` and slice. -/
def crop_calculate_data (dm : DataAndMetadata) (bounds : (ℚ × ℚ) × (ℚ × ℚ)) : Res NDArray :=
  match dm.data with
  | none => .absent
  | some a =>
    if !is_shape_and_dtype_valid a.shape a.dtype then .absent
    else
      let r0 := pytrunc ((dm.data_shape.getD 0 0 : ℚ) * bounds.1.1)
      let c0 := pytrunc ((dm.data_shape.getD 1 0 : ℚ) * bounds.1.2)
      let h := pytrunc ((dm.data_shape.getD 0 0 : ℚ) * bounds.2.1)
      let w := pytrunc ((dm.data_shape.getD 1 0 : ℚ) * bounds.2.2)
      .ok (slice2d a r0 (r0 + h) c0 (c0 + w))

/-- Core.function_crop: guards, then the per-axis calibration shift, then
the eagerly computed slice. -/
def function_crop (dm : DataAndMetadata) (bounds : (ℚ × ℚ) × (ℚ × ℚ)) : Res DataAndMetadata :=
  match dm.dimensional_calibrations with
  | none => .absent
  | some cals =>
    if !is_shape_and_dtype_valid dm.data_shape dm.data_dtype then .absent
    else
      match crop_calibrations dm.data_shape bounds.1 0 cals with
      | .exn e => .exn e
      | .absent => .absent
      | .ok cropped =>
        match crop_calculate_data dm bounds with
        | .exn e => .exn e
        | r => .ok (new_data_and_metadata r.toOption dm.intensity_calibration (some cropped) dm.metadata)

/-- Core.function_crop_interval's `calculate_data`: 1-D slice between the
integer pixel bounds `int(shape[0] * interval[i])`. -/
def crop_interval_calculate_data (dm : DataAndMetadata) (interval : ℚ × ℚ) : Res NDArray :=
  match dm.data with
  | none => .absent
  | some a =>
    if !is_shape_and_dtype_valid a.shape a.dtype then .absent
    else
      .ok (slice1d a (pytrunc ((dm.data_shape.getD 0 0 : ℚ) * interval.1))
        (pytrunc ((dm.data_shape.getD 0 0 : ℚ) * interval.2)))

/-- Core.function_crop_interval: the surviving axis-0 calibration offset is
`offset + data_shape[0] * interval_int[0] * scale` (line 526) — note the
source multiplies by the truncated integer pixel bound `interval_int[0]`,
not by the fractional `interval[0]`. -/
def function_crop_interval (dm : DataAndMetadata) (interval : ℚ × ℚ) : Res DataAndMetadata :=
  match dm.dimensional_calibrations with
  | none => .absent
  | some cals =>
    if !is_shape_and_dtype_valid dm.data_shape dm.data_dtype then .absent
    else
      match cals with
      | [] => .exn .indexError
      | c :: _ =>
        let i0 := pytrunc ((dm.data_shape.getD 0 0 : ℚ) * interval.1)
        let cropped := [(⟨c.offset + (dm.data_shape.getD 0 0 : ℚ) * (i0 : ℚ) * c.scale,
          c.scale, c.units⟩ : Calibration)]
        match crop_interval_calculate_data dm interval with
        | .exn e => .exn e
        | r => .ok (new_data_and_metadata r.toOption dm.intensity_calibration (some cropped) dm.metadata)

/-- A 1-D array of ten zeros. -/
def arr10 : NDArray := ⟨[10], .float64, fun _ => 0⟩

/-- A 1-D shape-(10,) input with axis calibration (0, 1, "nm"). -/
def dm10 : DataAndMetadata :=
  ⟨some arr10, [10], .float64, uncalibrated, some [⟨0, 1, "nm"⟩], []⟩

/-- A 10x10 array of zeros. -/
def arr1010 : NDArray := ⟨[10, 10], .float64, fun _ => 0⟩

/-- The concrete scenario of spec §8: a 10x10 input, both axes calibrated
(0, 1, "nm"). -/
def dm1010 : DataAndMetadata :=
  ⟨some arr1010, [10, 10], .float64, uncalibrated, some [⟨0, 1, "nm"⟩, ⟨0, 1, "nm"⟩], []⟩

/-- Product of a shape's extents. -/
def shapeProd (s : List ℕ) : ℕ := s.foldr (fun d p => d * p) 1

/-- Row-major linear index of a multi-index in a shape. -/
def linearIndex : List ℕ → List ℕ → ℕ
  | [], _ => 0
  | _ :: ds, idx => idx.getD 0 0 * shapeProd ds + linearIndex ds (idx.drop 1)

/-- Row-major multi-index of a linear index in a shape. -/
def delinearize : List ℕ → ℕ → List ℕ
  | [], _ => []
  | _ :: ds, n => n / shapeProd ds :: delinearize ds (n % shapeProd ds)

/-- Modelled from the spec: `numpy.reshape` of the external kernel — at
most one -1 entry (resolved from the element count), the new element count
must match the old, and elements keep their row-major order; a shape that
cannot be satisfied raises. -/
def np_reshape (a : NDArray) (shape : List ℤ) : Res NDArray :=
  let total := shapeProd a.shape
  if shape.count (-1) > 1 then .exn .valueError
  else if shape.count (-1) = 1 then
    let known := (shape.filter (fun d => d != -1)).foldr (fun d p => d.toNat * p) 1
    if known != 0 && total % known == 0 then
      let resolved := shape.map (fun d => if d == -1 then total / known else d.toNat)
      .ok ⟨resolved, a.dtype, fun idx => a.data (delinearize a.shape (linearIndex resolved idx))⟩
    else .exn .valueError
  else
    let resolved := shape.map Int.toNat
    if shapeProd resolved == total then
      .ok ⟨resolved, a.dtype, fun idx => a.data (delinearize a.shape (linearIndex resolved idx))⟩
    else .exn .valueError

/-- The rank-plus-1 calibration rule of Core.function_reshape (lines
786-793): the -1 wildcard axis gets an uncalibrated placeholder, every
other axis takes the next source calibration in order. -/
def reshape_up_calibrations : List ℤ → List Calibration → List Calibration
  | [], _ => []
  | d :: ds, cals =>
    if d == -1 then uncalibrated :: reshape_up_calibrations ds cals
    else cals.headD uncalibrated :: reshape_up_calibrations ds (cals.drop 1)

/-- The rank-minus-1 calibration rule of Core.function_reshape (lines
794-800): zip the source shape with the source calibrations and drop the
calibration of every size-1 axis. -/
def reshape_down_calibrations : List ℕ → List Calibration → List Calibration
  | [], _ => []
  | _ :: _, [] => []
  | d :: ds, c :: cals =>
    if d = 1 then reshape_down_calibrations ds cals
    else c :: reshape_down_calibrations ds cals

/-- Core.function_reshape's `calculate_data`. -/
def reshape_calculate_data (dm : DataAndMetadata) (shape : List ℤ) : Res NDArray :=
  match dm.data with
  | none => .absent
  | some a =>
    if !is_shape_and_dtype_valid a.shape a.dtype then .absent
    else np_reshape a shape

/-- Core.function_reshape: three calibration cases — rank+1 with a -1
wildcard, rank-1 with a size-1 source axis, and everything else (all output
axes uncalibrated). -/
def function_reshape (dm : DataAndMetadata) (shape : List ℤ) : Res DataAndMetadata :=
  match dm.dimensional_calibrations with
  | none => .absent
  | some cals =>
    if !is_shape_and_dtype_valid dm.data_shape dm.data_dtype then .absent
    else
      let new_cals :=
        if dm.data_shape.length + 1 == shape.length && shape.contains (-1) then
          reshape_up_calibrations shape cals
        else if dm.data_shape.length - 1 == shape.length && dm.data_shape.contains 1 then
          reshape_down_calibrations dm.data_shape cals
        else
          shape.map (fun _ => uncalibrated)
      match reshape_calculate_data dm shape with
      | .exn e => .exn e
      | r => .ok (new_data_and_metadata r.toOption dm.intensity_calibration (some new_cals) dm.metadata)

/-- A shape-(1,1,5) array. -/
def arr115 : NDArray := ⟨[1, 1, 5], .float64, fun _ => 3⟩

/-- A shape-(1,1,5) input with three distinct axis calibrations. -/
def dm115 : DataAndMetadata :=
  ⟨some arr115, [1, 1, 5], .float64, uncalibrated,
   some [⟨1, 1, "a"⟩, ⟨2, 1, "b"⟩, ⟨3, 1, "c"⟩], []⟩

/-- A shape-(1,5) array. -/
def arr15 : NDArray := ⟨[1, 5], .float64, fun _ => 2⟩

/-- A shape-(1,5) input with two axis calibrations. -/
def dm15 : DataAndMetadata :=
  ⟨some arr15, [1, 5], .float64, uncalibrated, some [⟨1, 1, "a"⟩, ⟨2, 1, "b"⟩], []⟩

/-- The 2-D channel plane `data[..., c]` of a color image. -/
def chanSlice (a : NDArray) (c : ℕ) : NDArray :=
  ⟨a.shape.dropLast, a.dtype, fun idx => a.data (idx ++ [c])⟩

/-- The RGB assembly of the filters' color branch:
`rgb = numpy.empty(shape[:-1] + (3,)); rgb[..., c] = F(data[..., c])` for
each of the three channels. -/
def assembleRGB (F : NDArray → NDArray) (a : NDArray) : NDArray :=
  ⟨a.shape.dropLast ++ [3], .uint8,
   fun idx => (F (chanSlice a (idx.getLastD 0))).data idx.dropLast⟩

/-- The RGBA assembly of the filters' color branch: channels 0-2 filtered,
channel 3 copied verbatim (`rgba[..., 3] = data[..., 3]`). -/
def assembleRGBA (F : NDArray → NDArray) (a : NDArray) : NDArray :=
  ⟨a.shape.dropLast ++ [4], .uint8,
   fun idx =>
     if idx.getLastD 0 == 3 then a.data (idx.dropLast ++ [3])
     else (F (chanSlice a (idx.getLastD 0))).data idx.dropLast⟩

/-- The `calculate_data` block shared verbatim by Core.function_sobel,
function_laplace, function_median_filter and function_uniform_filter
(modulo the filter primitive `F`): validity guard, RGB branch, RGBA branch,
plain filtering otherwise. -/
def filter_calculate_data (F : NDArray → NDArray) (d : Option NDArray) : Res NDArray :=
  match d with
  | none => .absent
  | some a =>
    if !is_shape_and_dtype_valid a.shape a.dtype then .absent
    else if is_shape_and_dtype_rgb a.shape a.dtype then .ok (assembleRGB F a)
    else if is_shape_and_dtype_rgba a.shape a.dtype then .ok (assembleRGBA F a)
    else .ok (F a)

/-- The packaging shared by the four branching filters: calibrations and
metadata pass through unchanged. -/
def filter_entry (F : NDArray → NDArray) (dm : DataAndMetadata) : Res DataAndMetadata :=
  match filter_calculate_data F dm.data with
  | .exn e => .exn e
  | r => .ok (new_data_and_metadata r.toOption dm.intensity_calibration
      dm.dimensional_calibrations dm.metadata)

/-- Core.function_sobel. -/
def function_sobel (k : Kernel) (dm : DataAndMetadata) : Res DataAndMetadata :=
  filter_entry k.sobel dm

/-- Core.function_laplace. -/
def function_laplace (k : Kernel) (dm : DataAndMetadata) : Res DataAndMetadata :=
  filter_entry k.laplace dm

/-- The size clamp `max(min(int(size), 999), 1)` of Core lines 357 and 384. -/
def clamp_filter_size (size : ℤ) : ℤ := max (min size 999) 1

/-- Core.function_median_filter: clamps the size, then filters with the
shared color-branching block. -/
def function_median_filter (k : Kernel) (dm : DataAndMetadata) (size : ℤ) : Res DataAndMetadata :=
  filter_entry (k.median_filter (clamp_filter_size size)) dm

/-- Core.function_uniform_filter: clamps the size, then filters with the
shared color-branching block. -/
def function_uniform_filter (k : Kernel) (dm : DataAndMetadata) (size : ℤ) : Res DataAndMetadata :=
  filter_entry (k.uniform_filter (clamp_filter_size size)) dm

/-- Core.function_gaussian_blur's `calculate_data`: no color branch — the
n-dimensional kernel is applied to the whole array, channel axis included. -/
def gaussian_blur_calculate_data (F : NDArray → NDArray) (d : Option NDArray) : Res NDArray :=
  match d with
  | none => .absent
  | some a =>
    if !is_shape_and_dtype_valid a.shape a.dtype then .absent
    else .ok (F a)

/-- Core.function_gaussian_blur. -/
def function_gaussian_blur (k : Kernel) (dm : DataAndMetadata) (sigma : ℚ) : Res DataAndMetadata :=
  match gaussian_blur_calculate_data (k.gaussian_filter sigma) dm.data with
  | .exn e => .exn e
  | r => .ok (new_data_and_metadata r.toOption dm.intensity_calibration
      dm.dimensional_calibrations dm.metadata)

/-- Whether a call returned a constructed result. -/
def Res.isOk {α : Type _} : Res α → Bool
  | .ok _ => true
  | _ => false

/-- A 1x1 RGBA image whose alpha value is 255 and color values are 10. -/
def arrRGBA : NDArray :=
  ⟨[1, 1, 4], .uint8, fun idx => if idx == [0, 0, 3] then 255 else 10⟩

/-- A calibrated 1x1 RGBA input (two data axes, both calibrated (0,1,"nm")). -/
def dmRGBA : DataAndMetadata :=
  ⟨some arrRGBA, [1, 1, 4], .uint8, ⟨0, 2, "counts"⟩,
   some [⟨0, 1, "nm"⟩, ⟨0, 1, "nm"⟩], []⟩

/-- A kernel whose whole-array gaussian primitive changes every element
(as a smoothing of a non-constant array along all axes, channel axis
included, does). -/
def cxKernel : Kernel :=
  { modelKernel with gaussian_filter := fun _ a => ⟨a.shape, a.dtype, fun _ => 0⟩ }

/-- Modelled from the spec: `numpy.concatenate` element routing — an index
selects the source array by offsetting the concatenation-axis coordinate. -/
def np_concat_get (arrs : List NDArray) (axis : ℕ) (idx : List ℕ) : ℚ :=
  match arrs with
  | [] => 0
  | a :: rest =>
    if idx.getD axis 0 < a.shape.getD axis 0 then a.data idx
    else np_concat_get rest axis (idx.set axis (idx.getD axis 0 - a.shape.getD axis 0))

/-- Modelled from the spec: `numpy.concatenate` of the external kernel —
requires equal rank and equal extents on every axis other than the
concatenation axis, else raises. -/
def np_concatenate (arrs : List NDArray) (axis : ℕ) : Res NDArray :=
  match arrs with
  | [] => .exn .valueError
  | a0 :: rest =>
    if rest.all (fun a => a.shape.length == a0.shape.length &&
        a.shape.eraseIdx axis == a0.shape.eraseIdx axis) then
      .ok ⟨a0.shape.set axis ((a0 :: rest).foldr (fun a t => a.shape.getD axis 0 + t) 0),
        a0.dtype, np_concat_get (a0 :: rest) axis⟩
    else .exn .valueError

/-- Core.function_concatenate's `calculate_data`: absent when any payload is
absent, absent when some input's trailing axes (axes 1 and up, regardless
of the concatenation axis) differ from the first input's, else the kernel
concatenation. -/
def concatenate_calculate_data (dms : List DataAndMetadata) (axis : ℕ)
    (partial_shape : List ℕ) : Res NDArray :=
  if dms.any (fun dm => dm.data.isNone) then .absent
  else if dms.all (fun dm => dm.data_shape.drop 1 == partial_shape.drop 1) then
    np_concatenate (dms.filterMap (fun dm => dm.data)) axis
  else .absent

/-- Core.function_concatenate: keeps the first input's intensity
calibration and the concatenation axis's calibration, resets every other
axis's calibration, resets metadata.  The shape guard of line 623 is the
chained comparison `data_shape != partial_shape[1:] is None`, whose second
conjunct `partial_shape[1:] is None` is always False — the guard never
fires; it is embedded literally as `&& false`. -/
def function_concatenate (dms : List DataAndMetadata) (axis : ℕ) : Res DataAndMetadata :=
  match dms with
  | [] => .absent
  | dm0 :: _ =>
    let partial_shape := dm0.data_shape
    if dms.any (fun dm => dm.data.isNone) then .absent
    else if dms.any (fun dm => (dm.data_shape != partial_shape.drop 1) && false) then .absent
    else
      match dm0.dimensional_calibrations with
      | none => .exn .typeError
      | some cals =>
        let out_cals := cals.enum.map
          (fun p => if p.1 != axis then uncalibrated else p.2)
        match concatenate_calculate_data dms axis partial_shape with
        | .exn e => .exn e
        | r => .ok (new_data_and_metadata r.toOption dm0.intensity_calibration
            (some out_cals) [])

/-- Core.function_hstack: delegates to concatenation along axis 1 for
rank-2-or-more first inputs, else along axis 0. -/
def function_hstack (dms : List DataAndMetadata) : Res DataAndMetadata :=
  match dms with
  | [] => .absent
  | dm0 :: _ =>
    if 2 ≤ dm0.data_shape.length then function_concatenate dms 1
    else function_concatenate dms 0

/-- Modelled from the spec: `numpy.vstack` on the rank-1 inputs this code
path handles — stacks equal-length 1-D arrays into a rank-2 array, else
raises. -/
def np_vstack (arrs : List NDArray) : Res NDArray :=
  match arrs with
  | [] => .exn .valueError
  | a0 :: rest =>
    if rest.all (fun a => a.shape == a0.shape) && a0.shape.length == 1 then
      .ok ⟨[(a0 :: rest).length, a0.shape.getD 0 0], a0.dtype,
        fun idx => ((a0 :: rest).getD (idx.getD 0 0) a0).data [idx.getD 1 0]⟩
    else .exn .valueError

/-- Core.function_vstack's rank-1 `calculate_data`. -/
def vstack_calculate_data (dms : List DataAndMetadata) (partial_shape : List ℕ) : Res NDArray :=
  if dms.any (fun dm => dm.data.isNone) then .absent
  else if dms.all (fun dm => dm.data_shape.getD 0 0 == partial_shape.getD 0 0) then
    np_vstack (dms.filterMap (fun dm => dm.data))
  else .absent

/-- Core.function_vstack: rank-2-or-more first inputs delegate to
concatenation along axis 0; the rank-1 path keeps the first input's single
axis calibration in the second slot and resets the new stacking axis.  Its
shape guard of line 692 is the same always-False chained comparison as in
`function_concatenate`. -/
def function_vstack (dms : List DataAndMetadata) : Res DataAndMetadata :=
  match dms with
  | [] => .absent
  | dm0 :: _ =>
    if 2 ≤ dm0.data_shape.length then function_concatenate dms 0
    else
      if dms.any (fun dm => dm.data.isNone) then .absent
      else if dms.any (fun dm =>
          (dm.data_shape.getD 0 0 != dm0.data_shape.getD 0 0) && false) then .absent
      else
        match dm0.dimensional_calibrations with
        | none => .exn .typeError
        | some [] => .exn .indexError
        | some (c0 :: _) =>
          match vstack_calculate_data dms dm0.data_shape with
          | .exn e => .exn e
          | r => .ok (new_data_and_metadata r.toOption dm0.intensity_calibration
              (some [uncalibrated, c0]) [])

/-- A 2x3 array of ones. -/
def arr23 : NDArray := ⟨[2, 3], .float64, fun _ => 1⟩

/-- A 3x3 array of twos. -/
def arr33 : NDArray := ⟨[3, 3], .float64, fun _ => 2⟩

/-- A 2x4 array of threes. -/
def arr24 : NDArray := ⟨[2, 4], .float64, fun _ => 3⟩

/-- A calibrated 2x3 input with distinct calibrations. -/
def dm23 : DataAndMetadata :=
  ⟨some arr23, [2, 3], .float64, ⟨0, 2, "e"⟩, some [⟨0, 1, "u"⟩, ⟨0, 1, "v"⟩], []⟩

/-- A calibrated 3x3 input. -/
def dm33 : DataAndMetadata :=
  ⟨some arr33, [3, 3], .float64, uncalibrated, some [⟨0, 1, "p"⟩, ⟨0, 1, "q"⟩], []⟩

/-- A calibrated 2x4 input. -/
def dm24 : DataAndMetadata :=
  ⟨some arr24, [2, 4], .float64, uncalibrated, some [⟨0, 1, "p"⟩, ⟨0, 1, "q"⟩], []⟩

/-- Core.function_line_profile's `calculate_data`: the whole floating-point
sampling pipeline is the external kernel's `line_profile_data`; the guard
structure is the catalog's usual validity check. -/

def line_profile_calculate_data (k : Kernel) (dm : DataAndMetadata)
    (vector : (ℚ × ℚ) × (ℚ × ℚ)) (w : ℤ) : Res NDArray :=
  match dm.data with
  | none => .absent
  | some a =>
    if !is_shape_and_dtype_valid a.shape a.dtype then .absent
    else .ok (k.line_profile_data a vector w)

/-- Core.function_line_profile: `integration_width` is truncated with
`int()` and then `assert integration_width > 0` runs before any validity
guard; the single output axis calibration takes the second source axis's
scale and units with offset reset to 0. -/
def function_line_profile (k : Kernel) (dm : DataAndMetadata)
    (vector : (ℚ × ℚ) × (ℚ × ℚ)) (integration_width : ℚ) : Res DataAndMetadata :=
  let w := pytrunc integration_width
  if 0 < w then
    match dm.dimensional_calibrations with
    | none => .absent
    | some cals =>
      if !is_shape_and_dtype_valid dm.data_shape dm.data_dtype then .absent
      else if cals.length != 2 then .absent
      else
        let out_cals := [(⟨0, (cals.getD 1 uncalibrated).scale,
          (cals.getD 1 uncalibrated).units⟩ : Calibration)]
        match line_profile_calculate_data k dm vector w with
        | .exn e => .exn e
        | r => .ok (new_data_and_metadata r.toOption dm.intensity_calibration
            (some out_cals) dm.metadata)
  else .exn .assertionError

/-- A Python shape argument to `numpy.zeros`: either an integer extent or a
nested tuple (which numpy rejects). -/
inductive ShapeArg where
  | int (n : ℕ)
  | tup (t : List ℕ)

/-- Modelled from the spec: `numpy.zeros` of the external kernel — a shape
whose entries are integers yields a zero-filled array; a nested tuple entry
(such as the `(data_shape[:-2], )` the source builds) raises TypeError. -/
def np_zeros (args : List ShapeArg) (dt : DType) : Res NDArray :=
  if args.all (fun arg => match arg with | .int _ => true | .tup _ => false) then
    .ok ⟨args.map (fun arg => match arg with | .int n => n | .tup _ => 0), dt, fun _ => 0⟩
  else .exn .typeError

/-- Core.function_pick's `calculate_data`: the fractional position is
scaled by the image extents and truncated; in bounds, the column at that
position is copied; out of bounds, the source calls
`numpy.zeros((data_shape[:-2], ), dtype)` — the shape argument is a
one-element tuple containing a tuple. -/
def pick_calculate_data (dm : DataAndMetadata) (position : ℚ × ℚ) : Res NDArray :=
  match dm.data with
  | none => .absent
  | some a =>
    if !is_shape_and_dtype_valid a.shape a.dtype then .absent
    else if dm.data_shape.length != 3 then .absent
    else
      let py := pytrunc (position.1 * (dm.data_shape.getD 1 0 : ℚ))
      let px := pytrunc (position.2 * (dm.data_shape.getD 2 0 : ℚ))
      if 0 ≤ py ∧ py < (dm.data_shape.getD 1 0 : ℤ) ∧
          0 ≤ px ∧ px < (dm.data_shape.getD 2 0 : ℤ) then
        .ok ⟨[dm.data_shape.getD 0 0], a.dtype,
          fun idx => a.data [idx.getD 0 0, py.toNat, px.toNat]⟩
      else
        np_zeros [.tup (dm.data_shape.dropLast.dropLast)] a.dtype

/-- Core.function_pick: rank-3 only; the result keeps the calibrations of
all but the last two axes. -/
def function_pick (dm : DataAndMetadata) (position : ℚ × ℚ) : Res DataAndMetadata :=
  match dm.dimensional_calibrations with
  | none => .absent
  | some cals =>
    if !is_shape_and_dtype_valid dm.data_shape dm.data_dtype then .absent
    else if dm.data_shape.length != 3 then .absent
    else
      match pick_calculate_data dm position with
      | .exn e => .exn e
      | r => .ok (new_data_and_metadata r.toOption dm.intensity_calibration
          (some cals.dropLast.dropLast) dm.metadata)

/-- A 2x3x3 stack of constant images. -/
def arr233 : NDArray := ⟨[2, 3, 3], .float64, fun _ => 7⟩

/-- A calibrated 2x3x3 input. -/
def dm233 : DataAndMetadata :=
  ⟨some arr233, [2, 3, 3], .float64, uncalibrated,
   some [⟨0, 1, "a"⟩, ⟨0, 1, "b"⟩, ⟨0, 1, "c"⟩], []⟩

/-- Validity of a shape does not depend on the dtype in this model (every
modelled dtype is in the supported set). -/
theorem valid_dtype_irrel (s : List ℕ) (d d' : DType)
    (h : is_shape_and_dtype_valid s d = true) :
    is_shape_and_dtype_valid s d' = true := by
  unfold is_shape_and_dtype_valid at h ⊢
  simp only [beq_self_eq_true, Bool.true_or, Bool.or_true, Bool.and_true] at h ⊢
  exact h

/-- Stripping the slash that the forward transform prepended recovers the
original unit string. -/
theorem remove_one_slash_prepend (u : String) : remove_one_slash ("1/" ++ u) = u := by
  cases u with
  | mk l => rfl

/-- Computation lemma: on a consistent, valid 2-D input with calibrations of
matching length, `function_fft` returns the packaged result of the 2-D
branch. -/
theorem fft_eq_ok_2d (k : Kernel) (dm : DataAndMetadata) (a : NDArray) (cs : List Calibration)
    (hdata : dm.data = some a)
    (hsh : a.shape = dm.data_shape) (hdt : a.dtype = dm.data_dtype)
    (hcals : dm.dimensional_calibrations = some cs)
    (hrank : dm.data_shape.length = 2) (hlen : cs.length = 2)
    (hvalid : is_shape_and_dtype_valid dm.data_shape dm.data_dtype = true) :
    (function_fft k dm).1 =
      .ok (new_data_and_metadata (some (k.fft2 a)) uncalibrated
        (some (List.zipWith fft_dimensional_calibration cs dm.data_shape)) []) := by
  obtain ⟨d, ds, dt, ic, dc, md⟩ := dm
  dsimp only at hdata hsh hdt hcals hrank hvalid ⊢
  subst hdata hcals
  have hrgb : is_shape_and_dtype_rgb_type ds dt = false := by
    unfold is_shape_and_dtype_rgb_type is_shape_and_dtype_rgb is_shape_and_dtype_rgba
    rw [hrank]
    simp
  have hdim : dimensional_shape_from_shape_and_dtype ds dt = ds := by
    unfold dimensional_shape_from_shape_and_dtype
    rw [hrgb]
    rfl
  have hrgb2 : is_shape_and_dtype_rgb_type a.shape a.dtype = false := by rw [hsh, hdt]; exact hrgb
  have hdim2 : dimensional_shape_from_shape_and_dtype a.shape a.dtype = a.shape := by
    unfold dimensional_shape_from_shape_and_dtype
    rw [hrgb2]
    rfl
  have hval2 : is_shape_and_dtype_valid a.shape a.dtype = true := by rw [hsh, hdt]; exact hvalid
  have h1d : is_data_1d a = false := by
    unfold is_data_1d
    rw [hdim2, hsh, hrank]
    rfl
  have h2d : is_data_2d a = true := by
    unfold is_data_2d
    rw [hdim2, hsh, hrank]
    rfl
  unfold function_fft fft_calculate_data
  dsimp only
  rw [hvalid, hdim, hlen, ← hrank]
  simp only [Bool.not_true, Bool.false_eq_true, if_false, bne_self_eq_false, hval2, h1d, h2d,
    if_true]
  rfl

/-- C5: Unit strings round-trip under forward then inverse Fourier
transform: `function_fft` maps each axis unit u to "1/"+u and
`function_ifft` strips the leading "1/", so for every valid 2-D input the
composite restores every axis unit (in particular "nm"). -/
theorem claim_c5_fft_ifft_units_roundtrip (k : Kernel) (dm : DataAndMetadata)
    (a : NDArray) (cs : List Calibration)
    (hdata : dm.data = some a)
    (hsh : a.shape = dm.data_shape) (hdt : a.dtype = dm.data_dtype)
    (hcals : dm.dimensional_calibrations = some cs)
    (hrank : dm.data_shape.length = 2) (hlen : cs.length = 2)
    (hvalid : is_shape_and_dtype_valid dm.data_shape dm.data_dtype = true)
    (hk : (k.fft2 a).shape = a.shape) :
    unitsOf (fft_then_ifft k dm) = some (cs.map Calibration.units) := by
  have hfft := fft_eq_ok_2d k dm a cs hdata hsh hdt hcals hrank hlen hvalid
  obtain ⟨n0, n1, hds⟩ := List.length_eq_two.mp hrank
  obtain ⟨c0, c1, hcs⟩ := List.length_eq_two.mp hlen
  subst hcs
  rw [hds] at hsh hvalid hfft
  unfold fft_then_ifft
  rw [hfft]
  have hshape : (k.fft2 a).shape = [n0, n1] := by rw [hk]; exact hsh
  have hval : is_shape_and_dtype_valid (k.fft2 a).shape (k.fft2 a).dtype = true := by
    rw [hshape]
    exact valid_dtype_irrel _ dm.data_dtype _ hvalid
  have hrgb : is_shape_and_dtype_rgb_type (k.fft2 a).shape (k.fft2 a).dtype = false := by
    unfold is_shape_and_dtype_rgb_type is_shape_and_dtype_rgb is_shape_and_dtype_rgba
    rw [hshape]
    simp
  have hdim : dimensional_shape_from_shape_and_dtype (k.fft2 a).shape (k.fft2 a).dtype =
      [n0, n1] := by
    unfold dimensional_shape_from_shape_and_dtype
    rw [hrgb]
    exact hshape
  have h1d : is_data_1d (k.fft2 a) = false := by
    unfold is_data_1d
    rw [hdim]
    rfl
  have h2d : is_data_2d (k.fft2 a) = true := by
    unfold is_data_2d
    rw [hdim]
    rfl
  unfold function_ifft ifft_calculate_data new_data_and_metadata
  dsimp only
  rw [hval, hdim]
  simp only [List.zipWith, List.length_cons, List.length_nil, bne_self_eq_false,
    Bool.not_true, Bool.false_eq_true, if_false, hval, h1d, h2d, if_true]
  simp [unitsOf, resultCals, new_data_and_metadata, ifft_dimensional_calibration,
    fft_dimensional_calibration, remove_one_slash_prepend, hshape]

/-- C1: For every valid rank-1 or rank-2 input whose dimensional
calibrations are present (and consistent with the stored shape/dtype),
`function_fft` returns a result whose dimensional calibration on each axis
of length n with source calibration (offset, scale, units) is
(-0.5/scale, 1/(scale*n), "1/"+units), and whose intensity calibration is
reset to uncalibrated. -/
theorem claim_c1_fft_calibration (k : Kernel) (dm : DataAndMetadata) (cs : List Calibration)
    (hcals : dm.dimensional_calibrations = some cs)
    (hvalid : is_shape_and_dtype_valid dm.data_shape dm.data_dtype = true)
    (hlen : cs.length = (dimensional_shape_from_shape_and_dtype dm.data_shape dm.data_dtype).length)
    (hrank : (dimensional_shape_from_shape_and_dtype dm.data_shape dm.data_dtype).length = 1 ∨
             (dimensional_shape_from_shape_and_dtype dm.data_shape dm.data_dtype).length = 2)
    (hcons : ∀ a, dm.data = some a → a.shape = dm.data_shape ∧ a.dtype = dm.data_dtype) :
    resultCals (function_fft k dm).1 =
      some (List.zipWith fft_dimensional_calibration cs dm.data_shape) ∧
    resultIntensity (function_fft k dm).1 = some uncalibrated := by
  obtain ⟨d, ds, dt, ic, dc, md⟩ := dm
  dsimp only at hcals hvalid hlen hrank hcons ⊢
  subst hcals
  dsimp only [function_fft, fft_calculate_data]
  rw [hvalid, hlen]
  simp only [Bool.not_true, Bool.false_eq_true, if_false, bne_self_eq_false]
  cases d with
  | none =>
    simp [resultCals, resultIntensity, new_data_and_metadata]
  | some a =>
    obtain ⟨hsh, hdt⟩ := hcons a rfl
    have hval2 : is_shape_and_dtype_valid a.shape a.dtype = true := by rw [hsh, hdt]; exact hvalid
    dsimp only
    rw [hval2]
    rcases hrank with h1 | h2
    · have : is_data_1d a = true := by
        unfold is_data_1d
        rw [hsh, hdt, h1]
        rfl
      rw [this]
      simp [resultCals, resultIntensity, new_data_and_metadata]
    · have h1d : is_data_1d a = true ∨ is_data_1d a = false := by
        cases is_data_1d a <;> simp
      have h2d : is_data_2d a = true := by
        unfold is_data_2d
        rw [hsh, hdt, h2]
        rfl
      rcases h1d with h | h <;> rw [h]
      · simp [resultCals, resultIntensity, new_data_and_metadata]
      · rw [h2d]
        simp [resultCals, resultIntensity, new_data_and_metadata]

/-- Witness for C1: on the concrete 4x4 input with axis calibrations
(0, 1, "nm"), the output axis calibrations are (-0.5, 0.25, "1/nm") and the
intensity calibration is reset to (0, 1, ""). -/
theorem claim_c1_fft_calibration_witness :
    resultCals (function_fft modelKernel dm4).1 =
      some [⟨-(1/2), 1/4, "1/nm"⟩, ⟨-(1/2), 1/4, "1/nm"⟩] ∧
    resultIntensity (function_fft modelKernel dm4).1 = some uncalibrated := by
  have h := claim_c1_fft_calibration modelKernel dm4 [⟨0, 1, "nm"⟩, ⟨0, 1, "nm"⟩] rfl rfl rfl
    (Or.inr rfl) (by intro a h; cases h; exact ⟨rfl, rfl⟩)
  refine ⟨?_, h.2⟩
  rw [h.1]
  norm_num [fft_dimensional_calibration, dm4]
  rfl

/-- Witness for C5: on the concrete 4x4 input with axis units "nm", the
round trip fft then ifft restores the units "nm" on both axes. -/
theorem claim_c5_fft_ifft_units_roundtrip_witness :
    unitsOf (fft_then_ifft modelKernel dm4) = some ["nm", "nm"] := by
  have h := claim_c5_fft_ifft_units_roundtrip modelKernel dm4 arr4
    [⟨0, 1, "nm"⟩, ⟨0, 1, "nm"⟩] rfl rfl rfl rfl rfl rfl rfl rfl
  simpa using h

/-- Counterexample to C3: constructing the result of `function_fft` on the
concrete valid 4x4 input executes the numeric kernel (the invocation count
of the construction is not zero), so the payload computation of this
Calibrated-Array-Value entry is not deferred. -/
theorem claim_c3_deferred_counterexample : (function_fft modelKernel dm4).2 ≠ 0 := by
  decide

/-- C3 amended: array-returning catalog entries execute the numeric kernel
eagerly at construction (`function_fft` performs exactly one kernel
invocation while constructing its result on a valid 1-D or 2-D input);
only the scalar adapter defers: `function_scalar` performs no evaluation at
construction and applies its reduction only when the stored zero-argument
computation is read. -/
theorem claim_c3_eager_array_deferred_scalar (k : Kernel) (op : NDArray → ℚ)
    (dm : DataAndMetadata) (a : NDArray) (cs : List Calibration)
    (hdata : dm.data = some a)
    (hsh : a.shape = dm.data_shape) (hdt : a.dtype = dm.data_dtype)
    (hcals : dm.dimensional_calibrations = some cs)
    (hvalid : is_shape_and_dtype_valid dm.data_shape dm.data_dtype = true)
    (hlen : cs.length = (dimensional_shape_from_shape_and_dtype dm.data_shape dm.data_dtype).length)
    (hrank : (dimensional_shape_from_shape_and_dtype dm.data_shape dm.data_dtype).length = 1 ∨
             (dimensional_shape_from_shape_and_dtype dm.data_shape dm.data_dtype).length = 2) :
    (function_fft k dm).2 = 1 ∧
    (function_scalar op dm).2 = 0 ∧
    (function_scalar op dm).1.value_fn () = dm.data.map op := by
  refine ⟨?_, rfl, rfl⟩
  obtain ⟨d, ds, dt, ic, dc, md⟩ := dm
  dsimp only at hdata hsh hdt hcals hvalid hlen hrank ⊢
  subst hdata hcals
  dsimp only [function_fft, fft_calculate_data]
  rw [hvalid, hlen]
  simp only [Bool.not_true, Bool.false_eq_true, if_false, bne_self_eq_false]
  have hval2 : is_shape_and_dtype_valid a.shape a.dtype = true := by rw [hsh, hdt]; exact hvalid
  have hdim : dimensional_shape_from_shape_and_dtype a.shape a.dtype =
      dimensional_shape_from_shape_and_dtype ds dt := by rw [hsh, hdt]
  rw [hval2]
  rcases hrank with h1 | h2
  · have : is_data_1d a = true := by
      unfold is_data_1d
      rw [hdim, h1]
      rfl
    rw [this]
    simp
  · have h1d : is_data_1d a = false := by
      unfold is_data_1d
      rw [hdim, h2]
      rfl
    have h2d : is_data_2d a = true := by
      unfold is_data_2d
      rw [hdim, h2]
      rfl
    rw [h1d, h2d]
    simp

/-- Witness for the amended C3 at concrete inputs: constructing the fft of
the 4x4 input performs one kernel invocation, constructing the scalar
adapter performs none, and reading the scalar adapter's stored computation
applies the reduction to the payload. -/
theorem claim_c3_eager_array_deferred_scalar_witness :
    (function_fft modelKernel dm4).2 = 1 ∧
    (function_scalar (fun a => a.data [0, 0]) dm4).2 = 0 ∧
    (function_scalar (fun a => a.data [0, 0]) dm4).1.value_fn () =
      dm4.data.map (fun a => a.data [0, 0]) := by
  exact claim_c3_eager_array_deferred_scalar modelKernel (fun a => a.data [0, 0]) dm4 arr4
    [⟨0, 1, "nm"⟩, ⟨0, 1, "nm"⟩] rfl rfl rfl rfl rfl rfl (Or.inr rfl)

/-- C2, evaluated at the failing input: `function_crop_interval` on a
shape-(10,) input with axis calibration (0, 1, "nm") and interval
(0.2, 0.5) produces offset 0 + 10 * int(10*0.2) * 1 = 20, not the
0 + 10 * 0.2 * 1 = 2 that the claim's formula states — the source
multiplies by the truncated pixel bound instead of the fractional start.
`function_crop` itself does follow the claimed formula: on the 10x10 input
with bounds ((0.2, 0.0), (0.5, 1.0)) it yields axis-0 calibration
(2, 1, "nm") and output shape (5, 10). -/
theorem claim_c2_crop_interval_offset_bug :
    resultCals (function_crop_interval dm10 (1/5, 1/2)) = some [⟨20, 1, "nm"⟩] ∧
    resultCals (function_crop dm1010 ((1/5, 0), (1/2, 1))) =
      some [⟨2, 1, "nm"⟩, ⟨0, 1, "nm"⟩] ∧
    resultShape (function_crop dm1010 ((1/5, 0), (1/2, 1))) = some [5, 10] := by
  norm_num [function_crop_interval, function_crop, crop_calibrations, pair_index,
    crop_calculate_data, crop_interval_calculate_data, slice1d, slice2d, pyslice_bound,
    pytrunc, resultCals, resultShape, resultData, new_data_and_metadata, dm10, dm1010,
    arr10, arr1010, is_shape_and_dtype_valid, is_shape_and_dtype_rgb_type,
    is_shape_and_dtype_rgb, is_shape_and_dtype_rgba, Res.toOption, Int.toNat]

/-- Counterexample to C4: reshaping a shape-(1,1,5) input (two size-1 axes)
to the rank-2 shape (1,5) drops both size-1 calibrations, leaving one
calibration for a rank-2 payload — the calibration count does not equal the
payload rank. -/
theorem claim_c4_invariant_counterexample :
    (resultCals (function_reshape dm115 [1, 5])).map List.length ≠
      (resultShape (function_reshape dm115 [1, 5])).map List.length := by
  decide

/-- Dropping the size-1 axes removes as many calibrations as there are
size-1 extents. -/
theorem reshape_down_calibrations_length (ds : List ℕ) (cs : List Calibration)
    (h : cs.length = ds.length) :
    (reshape_down_calibrations ds cs).length = ds.length - ds.count 1 := by
  induction ds generalizing cs with
  | nil => simp [reshape_down_calibrations]
  | cons d ds ih =>
    cases cs with
    | nil => simp at h
    | cons c cs =>
      have hlen : cs.length = ds.length := by simpa using h
      have hcnt := List.count_le_length 1 ds
      by_cases hd : d = 1
      · subst hd
        simp only [reshape_down_calibrations, if_pos rfl, if_true, ite_true]
        rw [ih cs hlen, List.count_cons_self, List.length_cons]
        omega
      · simp only [reshape_down_calibrations, if_neg hd]
        rw [List.length_cons, ih cs hlen, List.length_cons, List.count_cons]
        simp only [beq_iff_eq, hd, Ne.symm hd, if_false]
        omega

/-- C4 amended: in the rank-minus-1 case of `function_reshape`, when
exactly one source axis has size 1 (and the target shape is well posed for
the element count), exactly that axis's calibration is dropped, so the
result carries one calibration per output axis; with several size-1 source
axes the rule drops all of them and the invariant fails (see the
counterexample). -/
theorem claim_c4_reshape_calibration_count (dm : DataAndMetadata) (a : NDArray)
    (cs : List Calibration) (shape : List ℤ)
    (hdata : dm.data = some a)
    (hsh : a.shape = dm.data_shape) (hdt : a.dtype = dm.data_dtype)
    (hcals : dm.dimensional_calibrations = some cs)
    (hvalid : is_shape_and_dtype_valid dm.data_shape dm.data_dtype = true)
    (hlen : cs.length = dm.data_shape.length)
    (hcount : dm.data_shape.count 1 = 1)
    (hrank : dm.data_shape.length = shape.length + 1)
    (hneg : shape.count (-1) = 0)
    (hprod : shapeProd (shape.map Int.toNat) = shapeProd dm.data_shape) :
    (resultCals (function_reshape dm shape)).map List.length = some shape.length ∧
    (resultShape (function_reshape dm shape)).map List.length = some shape.length := by
  obtain ⟨d, ds, dt, ic, dc, md⟩ := dm
  dsimp only at hdata hsh hdt hcals hvalid hlen hcount hrank hprod ⊢
  subst hdata hcals
  have hval2 : is_shape_and_dtype_valid a.shape a.dtype = true := by rw [hsh, hdt]; exact hvalid
  have h1 : (ds.length + 1 == shape.length) = false := by
    rw [hrank]
    simp only [beq_eq_false_iff_ne]
    omega
  have h2 : (ds.length - 1 == shape.length) = true := by
    rw [hrank]
    simp
  have hmem : (1 : ℕ) ∈ ds := by
    have : 0 < ds.count 1 := by omega
    exact List.count_pos_iff.mp this
  have h3 : ds.contains 1 = true := by
    simpa [List.contains] using hmem
  have hnp : np_reshape a shape =
      .ok ⟨shape.map Int.toNat, a.dtype,
        fun idx => a.data (delinearize a.shape (linearIndex (shape.map Int.toNat) idx))⟩ := by
    unfold np_reshape
    rw [hneg]
    simp only [gt_iff_lt, Nat.lt_irrefl, if_false, Nat.zero_lt_one, one_ne_zero]
    rw [if_neg (by omega), if_neg (by omega)]
    rw [hsh, if_pos (by simpa using hprod)]
  unfold function_reshape reshape_calculate_data
  dsimp only
  rw [hvalid, h1, h2, h3, hval2, hnp]
  simp only [Bool.not_true, Bool.false_eq_true, if_false, Bool.false_and, Bool.and_self,
    if_true, ite_true, Bool.true_and]
  constructor
  · simp only [resultCals, new_data_and_metadata, Res.toOption, Option.map]
    rw [reshape_down_calibrations_length ds cs (by rw [hlen]), hcount, hrank]
    simp
  · simp only [resultShape, resultData, new_data_and_metadata, Res.toOption, Option.map]
    simp

/-- Witness for the amended C4: reshaping the shape-(1,5) input (exactly
one size-1 axis) to rank-1 shape (5) leaves one calibration for the
one-axis payload. -/
theorem claim_c4_reshape_calibration_count_witness :
    (resultCals (function_reshape dm15 [5])).map List.length = some 1 ∧
    (resultShape (function_reshape dm15 [5])).map List.length = some 1 := by
  exact claim_c4_reshape_calibration_count dm15 arr15 [⟨1, 1, "a"⟩, ⟨2, 1, "b"⟩] [5]
    rfl rfl rfl rfl rfl rfl (by decide) rfl (by decide) rfl

/-- The shared filter block never raises. -/
theorem filter_calculate_data_ne_exn (F : NDArray → NDArray) (d : Option NDArray) (e : PyEx) :
    filter_calculate_data F d ≠ .exn e := by
  unfold filter_calculate_data
  cases d with
  | none => exact fun h => Res.noConfusion h
  | some a =>
    dsimp only
    split
    · exact fun h => Res.noConfusion h
    · split
      · exact fun h => Res.noConfusion h
      · split
        · exact fun h => Res.noConfusion h
        · exact fun h => Res.noConfusion h

/-- The four branching filters always return a constructed result with the
source calibrations and metadata. -/
theorem filter_entry_cals (F : NDArray → NDArray) (dm : DataAndMetadata) :
    resultIntensity (filter_entry F dm) = some dm.intensity_calibration ∧
    resultCals (filter_entry F dm) = dm.dimensional_calibrations := by
  unfold filter_entry
  cases hcd : filter_calculate_data F dm.data with
  | ok b => exact ⟨rfl, rfl⟩
  | absent => exact ⟨rfl, rfl⟩
  | exn e => exact absurd hcd (filter_calculate_data_ne_exn F dm.data e)

/-- `filter_entry` always returns a constructed result. -/
theorem filter_entry_isOk (F : NDArray → NDArray) (dm : DataAndMetadata) :
    (filter_entry F dm).isOk = true := by
  unfold filter_entry
  cases hcd : filter_calculate_data F dm.data with
  | ok b => rfl
  | absent => rfl
  | exn e => exact absurd hcd (filter_calculate_data_ne_exn F dm.data e)

/-- The gaussian block never raises. -/
theorem gaussian_blur_calculate_data_ne_exn (F : NDArray → NDArray) (d : Option NDArray)
    (e : PyEx) : gaussian_blur_calculate_data F d ≠ .exn e := by
  unfold gaussian_blur_calculate_data
  cases d with
  | none => exact fun h => Res.noConfusion h
  | some a =>
    dsimp only
    split
    · exact fun h => Res.noConfusion h
    · exact fun h => Res.noConfusion h

/-- `function_gaussian_blur` always returns a constructed result with the
source calibrations. -/
theorem gaussian_blur_cals (k : Kernel) (dm : DataAndMetadata) (sigma : ℚ) :
    resultIntensity (function_gaussian_blur k dm sigma) = some dm.intensity_calibration ∧
    resultCals (function_gaussian_blur k dm sigma) = dm.dimensional_calibrations := by
  unfold function_gaussian_blur
  cases hcd : gaussian_blur_calculate_data (k.gaussian_filter sigma) dm.data with
  | ok b => exact ⟨rfl, rfl⟩
  | absent => exact ⟨rfl, rfl⟩
  | exn e => exact absurd hcd (gaussian_blur_calculate_data_ne_exn _ dm.data e)

/-- On a valid RGB input the shared filter block selects the RGB branch. -/
theorem filter_calculate_data_rgb (F : NDArray → NDArray) (a : NDArray) (h w : ℕ)
    (hsh : a.shape = [h, w, 3]) (hdt : a.dtype = .uint8) (hh : 0 < h) (hw : 0 < w) :
    filter_calculate_data F (some a) = .ok (assembleRGB F a) := by
  have hvalid : is_shape_and_dtype_valid a.shape a.dtype = true := by
    rw [hsh, hdt]
    unfold is_shape_and_dtype_valid
    simp
    omega
  have hrgb : is_shape_and_dtype_rgb a.shape a.dtype = true := by
    rw [hsh, hdt]
    rfl
  unfold filter_calculate_data
  dsimp only
  rw [hvalid, hrgb]
  rfl

/-- On a valid RGBA input the shared filter block selects the RGBA branch. -/
theorem filter_calculate_data_rgba (F : NDArray → NDArray) (a : NDArray) (h w : ℕ)
    (hsh : a.shape = [h, w, 4]) (hdt : a.dtype = .uint8) (hh : 0 < h) (hw : 0 < w) :
    filter_calculate_data F (some a) = .ok (assembleRGBA F a) := by
  have hvalid : is_shape_and_dtype_valid a.shape a.dtype = true := by
    rw [hsh, hdt]
    unfold is_shape_and_dtype_valid
    simp
    omega
  have hrgb : is_shape_and_dtype_rgb a.shape a.dtype = false := by
    rw [hsh, hdt]
    rfl
  have hrgba : is_shape_and_dtype_rgba a.shape a.dtype = true := by
    rw [hsh, hdt]
    rfl
  unfold filter_calculate_data
  dsimp only
  rw [hvalid, hrgb, hrgba]
  rfl

/-- Channel c of a filtered RGB result is the filter applied to channel c
of the source. -/
theorem filter_entry_rgb_channel (F : NDArray → NDArray) (dm : DataAndMetadata) (a : NDArray)
    (h w : ℕ) (hdata : dm.data = some a) (hsh : a.shape = [h, w, 3]) (hdt : a.dtype = .uint8)
    (hh : 0 < h) (hw : 0 < w) (i j c : ℕ) :
    resultGet (filter_entry F dm) [i, j, c] = some ((F (chanSlice a c)).data [i, j]) := by
  unfold filter_entry
  rw [hdata, filter_calculate_data_rgb F a h w hsh hdt hh hw]
  rfl

/-- Channel c < 3 of a filtered RGBA result is the filter applied to
channel c of the source. -/
theorem filter_entry_rgba_channel (F : NDArray → NDArray) (dm : DataAndMetadata) (a : NDArray)
    (h w : ℕ) (hdata : dm.data = some a) (hsh : a.shape = [h, w, 4]) (hdt : a.dtype = .uint8)
    (hh : 0 < h) (hw : 0 < w) (i j c : ℕ) (hc : c < 3) :
    resultGet (filter_entry F dm) [i, j, c] = some ((F (chanSlice a c)).data [i, j]) := by
  unfold filter_entry
  rw [hdata, filter_calculate_data_rgba F a h w hsh hdt hh hw]
  have hc3 : (c == 3) = false := by
    simp only [beq_eq_false_iff_ne]
    omega
  simp [resultGet, resultData, new_data_and_metadata, Res.toOption, assembleRGBA, hc3]
  intro hcc
  exact absurd hcc (by omega)

/-- The alpha channel of a filtered RGBA result is copied verbatim from the
source. -/
theorem filter_entry_rgba_alpha (F : NDArray → NDArray) (dm : DataAndMetadata) (a : NDArray)
    (h w : ℕ) (hdata : dm.data = some a) (hsh : a.shape = [h, w, 4]) (hdt : a.dtype = .uint8)
    (hh : 0 < h) (hw : 0 < w) (i j : ℕ) :
    resultGet (filter_entry F dm) [i, j, 3] = some (a.data [i, j, 3]) := by
  unfold filter_entry
  rw [hdata, filter_calculate_data_rgba F a h w hsh hdt hh hw]
  rfl

/-- Counterexample to C6: `function_gaussian_blur` has no color branch — it
hands the whole RGBA array to the n-dimensional kernel, channel axis
included, so the alpha channel is not passed through unfiltered: on the
concrete 1x1 RGBA input with alpha 255, the result's alpha differs from the
source's. -/
theorem claim_c6_gaussian_alpha_counterexample :
    resultGet (function_gaussian_blur cxKernel dmRGBA 1) [0, 0, 3] ≠
      some (arrRGBA.data [0, 0, 3]) := by
  simp [function_gaussian_blur, gaussian_blur_calculate_data, cxKernel, modelKernel, dmRGBA,
    arrRGBA, resultGet, resultData, new_data_and_metadata, Res.toOption,
    is_shape_and_dtype_valid, is_shape_and_dtype_rgb_type, is_shape_and_dtype_rgb,
    is_shape_and_dtype_rgba]

/-- C6 amended: for sobel, laplace, median and uniform filters on an RGB or
RGBA input, each color channel is filtered independently (channel c of the
result is the filter primitive applied to channel c of the source), the
alpha channel of an RGBA input is passed through unfiltered, and intensity
and dimensional calibrations pass through unchanged; gaussian blur also
passes calibrations through unchanged, but it applies the n-dimensional
kernel to the whole array (channel axis included) with no per-channel
branch. -/
theorem claim_c6_filters_per_channel (k : Kernel) (dm : DataAndMetadata) (a : NDArray)
    (s : ℤ) (sigma : ℚ) (h w : ℕ)
    (hdata : dm.data = some a) (hdt : a.dtype = .uint8)
    (hsh : a.shape = [h, w, 3] ∨ a.shape = [h, w, 4])
    (hh : 0 < h) (hw : 0 < w) :
    (∀ i j c, c < 3 →
      resultGet (function_sobel k dm) [i, j, c] = some ((k.sobel (chanSlice a c)).data [i, j]) ∧
      resultGet (function_laplace k dm) [i, j, c] =
        some ((k.laplace (chanSlice a c)).data [i, j]) ∧
      resultGet (function_median_filter k dm s) [i, j, c] =
        some ((k.median_filter (clamp_filter_size s) (chanSlice a c)).data [i, j]) ∧
      resultGet (function_uniform_filter k dm s) [i, j, c] =
        some ((k.uniform_filter (clamp_filter_size s) (chanSlice a c)).data [i, j])) ∧
    (a.shape = [h, w, 4] → ∀ i j,
      resultGet (function_sobel k dm) [i, j, 3] = some (a.data [i, j, 3]) ∧
      resultGet (function_laplace k dm) [i, j, 3] = some (a.data [i, j, 3]) ∧
      resultGet (function_median_filter k dm s) [i, j, 3] = some (a.data [i, j, 3]) ∧
      resultGet (function_uniform_filter k dm s) [i, j, 3] = some (a.data [i, j, 3])) ∧
    (resultIntensity (function_sobel k dm) = some dm.intensity_calibration ∧
     resultCals (function_sobel k dm) = dm.dimensional_calibrations) ∧
    (resultIntensity (function_laplace k dm) = some dm.intensity_calibration ∧
     resultCals (function_laplace k dm) = dm.dimensional_calibrations) ∧
    (resultIntensity (function_median_filter k dm s) = some dm.intensity_calibration ∧
     resultCals (function_median_filter k dm s) = dm.dimensional_calibrations) ∧
    (resultIntensity (function_uniform_filter k dm s) = some dm.intensity_calibration ∧
     resultCals (function_uniform_filter k dm s) = dm.dimensional_calibrations) ∧
    (resultIntensity (function_gaussian_blur k dm sigma) = some dm.intensity_calibration ∧
     resultCals (function_gaussian_blur k dm sigma) = dm.dimensional_calibrations) := by
  refine ⟨?_, ?_, filter_entry_cals _ dm, filter_entry_cals _ dm, filter_entry_cals _ dm,
    filter_entry_cals _ dm, gaussian_blur_cals k dm sigma⟩
  · intro i j c hc
    rcases hsh with h3 | h4
    · exact ⟨filter_entry_rgb_channel _ dm a h w hdata h3 hdt hh hw i j c,
        filter_entry_rgb_channel _ dm a h w hdata h3 hdt hh hw i j c,
        filter_entry_rgb_channel _ dm a h w hdata h3 hdt hh hw i j c,
        filter_entry_rgb_channel _ dm a h w hdata h3 hdt hh hw i j c⟩
    · exact ⟨filter_entry_rgba_channel _ dm a h w hdata h4 hdt hh hw i j c hc,
        filter_entry_rgba_channel _ dm a h w hdata h4 hdt hh hw i j c hc,
        filter_entry_rgba_channel _ dm a h w hdata h4 hdt hh hw i j c hc,
        filter_entry_rgba_channel _ dm a h w hdata h4 hdt hh hw i j c hc⟩
  · intro h4 i j
    exact ⟨filter_entry_rgba_alpha _ dm a h w hdata h4 hdt hh hw i j,
      filter_entry_rgba_alpha _ dm a h w hdata h4 hdt hh hw i j,
      filter_entry_rgba_alpha _ dm a h w hdata h4 hdt hh hw i j,
      filter_entry_rgba_alpha _ dm a h w hdata h4 hdt hh hw i j⟩

/-- Witness for the amended C6 on the concrete 1x1 RGBA input: sobel's
channel 0 is the filtered channel plane, its alpha is copied from the
source, and its calibrations are the source's. -/
theorem claim_c6_filters_per_channel_witness :
    resultGet (function_sobel modelKernel dmRGBA) [0, 0, 0] =
      some ((chanSlice arrRGBA 0).data [0, 0]) ∧
    resultGet (function_sobel modelKernel dmRGBA) [0, 0, 3] = some (arrRGBA.data [0, 0, 3]) ∧
    resultCals (function_sobel modelKernel dmRGBA) = dmRGBA.dimensional_calibrations := by
  have h := claim_c6_filters_per_channel modelKernel dmRGBA arrRGBA 5 1 1 1 rfl rfl
    (Or.inr rfl) (by norm_num) (by norm_num)
  exact ⟨(h.1 0 0 0 (by norm_num)).1, (h.2.1 rfl 0 0).1, h.2.2.1.2⟩

/-- The size clamp is idempotent. -/
theorem clamp_filter_size_idem (s : ℤ) :
    clamp_filter_size (clamp_filter_size s) = clamp_filter_size s := by
  unfold clamp_filter_size
  omega

/-- C10: `function_median_filter` and `function_uniform_filter` silently
clamp the effective filter size into [1, 999] (sizes below 1 become 1,
sizes above 999 become 999) before filtering — filtering with any size
equals filtering with its clamp, the clamp lies in [1, 999], and the call
never fails. -/
theorem claim_c10_filter_size_clamp (k : Kernel) (dm : DataAndMetadata) (s : ℤ) :
    function_median_filter k dm s = function_median_filter k dm (clamp_filter_size s) ∧
    function_uniform_filter k dm s = function_uniform_filter k dm (clamp_filter_size s) ∧
    1 ≤ clamp_filter_size s ∧ clamp_filter_size s ≤ 999 ∧
    (s < 1 → clamp_filter_size s = 1) ∧ (999 < s → clamp_filter_size s = 999) ∧
    (function_median_filter k dm s).isOk = true ∧
    (function_uniform_filter k dm s).isOk = true := by
  refine ⟨?_, ?_, le_max_right _ _, ?_, ?_, ?_, filter_entry_isOk _ dm, filter_entry_isOk _ dm⟩
  · unfold function_median_filter
    rw [clamp_filter_size_idem]
  · unfold function_uniform_filter
    rw [clamp_filter_size_idem]
  · exact max_le (le_trans (min_le_right _ _) (by norm_num)) (by norm_num)
  · intro hs
    unfold clamp_filter_size
    omega
  · intro hs
    unfold clamp_filter_size
    omega

/-- Witness for C10 at concrete sizes: size -5 clamps to 1, size 2000
clamps to 999, and both filters return a constructed result there. -/
theorem claim_c10_filter_size_clamp_witness :
    clamp_filter_size (-5) = 1 ∧ clamp_filter_size 2000 = 999 ∧
    (function_median_filter modelKernel dmRGBA (-5)).isOk = true ∧
    (function_uniform_filter modelKernel dmRGBA 2000).isOk = true := by
  have h1 := claim_c10_filter_size_clamp modelKernel dmRGBA (-5)
  have h2 := claim_c10_filter_size_clamp modelKernel dmRGBA 2000
  exact ⟨h1.2.2.2.2.1 (by norm_num), h2.2.2.2.2.2.1 (by norm_num),
    h1.2.2.2.2.2.2.1, h2.2.2.2.2.2.2.2⟩

/-- C7, evaluated at the failing input: concatenating shapes (2,3) and
(3,3) along axis 1 — a mismatch on the non-concatenation axis 0 — raises
(the dead shape guard of line 623 never fires and the axes-1-and-up check
of calculate_data does not cover axis 0), instead of returning an absent
result as the claim states.  A mismatch the internal check does catch
(shapes (2,3) and (2,4), axis 0) still returns a constructed result whose
payload is absent, not an absent result.  The calibration bookkeeping of
the claim's second half does hold: concatenating (2,3) and (3,3) along
axis 0 keeps the first input's intensity calibration and axis-0
calibration and resets axis 1. -/
theorem claim_c7_concatenate_shape_guard_dead :
    function_concatenate [dm23, dm33] 1 = .exn .valueError ∧
    (function_concatenate [dm23, dm24] 0).isOk = true ∧
    resultData (function_concatenate [dm23, dm24] 0) = none ∧
    resultCals (function_concatenate [dm23, dm33] 0) = some [⟨0, 1, "u"⟩, uncalibrated] ∧
    resultIntensity (function_concatenate [dm23, dm33] 0) = some (⟨0, 2, "e"⟩ : Calibration) := by
  refine ⟨?_, ?_, ?_, ?_, ?_⟩ <;> rfl

/-- The line-profile kernel block never raises. -/
theorem line_profile_calculate_data_ne_exn (k : Kernel) (dm : DataAndMetadata)
    (vector : (ℚ × ℚ) × (ℚ × ℚ)) (w : ℤ) (e : PyEx) :
    line_profile_calculate_data k dm vector w ≠ .exn e := by
  unfold line_profile_calculate_data
  cases dm.data with
  | none => exact fun h => Res.noConfusion h
  | some a =>
    dsimp only
    split
    · exact fun h => Res.noConfusion h
    · exact fun h => Res.noConfusion h

/-- A nonpositive rational truncates to a nonpositive integer. -/
theorem pytrunc_nonpos (q : ℚ) (h : q ≤ 0) : pytrunc q ≤ 0 := by
  unfold pytrunc
  split
  · have : q = 0 := le_antisymm h (by assumption)
    simp [this]
  · exact Int.ceil_le.mpr (by exact_mod_cast h)

/-- Counterexample to C8: integration_width 0.5 is positive, yet
`function_line_profile` on a valid 2-D input fails with the assertion
(int() truncates 0.5 to 0 before the assert), instead of producing the
claimed output calibration. -/
theorem claim_c8_positive_width_counterexample :
    function_line_profile modelKernel dm1010 ((0, 0), (1, 1)) (1/2) = .exn .assertionError ∧
    (0 : ℚ) < 1/2 := by
  constructor
  · unfold function_line_profile
    norm_num [pytrunc]
  · norm_num

/-- C8 amended: for every input, integration_width ≤ 0 makes
`function_line_profile` fail with an assertion failure (an uncaught
programming-error signal), not an absent result; and when the truncated
integration width is at least 1 (in particular for widths ≥ 1) on a valid
rank-2 input, the single output axis calibration is the second source
axis's scale and units with offset reset to 0. -/
theorem claim_c8_line_profile_assert_and_calibration (k : Kernel) (dm : DataAndMetadata)
    (vector : (ℚ × ℚ) × (ℚ × ℚ)) (iw : ℚ) (cs : List Calibration)
    (hcals : dm.dimensional_calibrations = some cs)
    (hvalid : is_shape_and_dtype_valid dm.data_shape dm.data_dtype = true)
    (hlen : cs.length = 2) :
    (∀ dm2 v2 (w2 : ℚ), w2 ≤ 0 →
      function_line_profile k dm2 v2 w2 = .exn .assertionError) ∧
    (1 ≤ pytrunc iw →
      resultCals (function_line_profile k dm vector iw) =
        some [⟨0, (cs.getD 1 uncalibrated).scale, (cs.getD 1 uncalibrated).units⟩] ∧
      resultIntensity (function_line_profile k dm vector iw) =
        some dm.intensity_calibration) := by
  constructor
  · intro dm2 v2 w2 hw2
    have h0 := pytrunc_nonpos w2 hw2
    unfold function_line_profile
    rw [if_neg (by omega)]
  · intro hiw
    unfold function_line_profile
    rw [if_pos (by omega), hcals, hvalid]
    simp only [Bool.not_true, Bool.false_eq_true, if_false, hlen, bne_self_eq_false]
    cases hcd : line_profile_calculate_data k dm vector (pytrunc iw) with
    | ok b => exact ⟨rfl, rfl⟩
    | absent => exact ⟨rfl, rfl⟩
    | exn e => exact absurd hcd (line_profile_calculate_data_ne_exn k dm vector _ e)

/-- Witness for the amended C8 on the concrete 10x10 input: width -3 hits
the assertion, width 2 yields the axis-1-derived calibration (0, 1, "nm")
and the source intensity calibration. -/
theorem claim_c8_line_profile_assert_and_calibration_witness :
    function_line_profile modelKernel dm1010 ((0, 0), (1, 1)) (-3) = .exn .assertionError ∧
    resultCals (function_line_profile modelKernel dm1010 ((0, 0), (1, 1)) 2) =
      some [⟨0, 1, "nm"⟩] ∧
    resultIntensity (function_line_profile modelKernel dm1010 ((0, 0), (1, 1)) 2) =
      some uncalibrated := by
  have h := claim_c8_line_profile_assert_and_calibration modelKernel dm1010 ((0, 0), (1, 1)) 2
    [⟨0, 1, "nm"⟩, ⟨0, 1, "nm"⟩] rfl rfl rfl
  have h2 := h.2 (by norm_num [pytrunc])
  exact ⟨h.1 dm1010 ((0, 0), (1, 1)) (-3) (by norm_num), h2.1, h2.2⟩

/-- C9, evaluated at the failing input: picking position (2, 0) from the
rank-3 2x3x3 stack maps to row 6 ≥ 3, out of bounds; the zero branch calls
`numpy.zeros((data_shape[:-2], ), dtype)` with a nested-tuple shape, which
raises TypeError — the claim's zero-filled array over the remaining first
axis is never produced.  An in-bounds position (0, 0) does return a copy of
the column at that position, with the first axis's calibration kept. -/
theorem claim_c9_pick_out_of_bounds_raises :
    function_pick dm233 (2, 0) = .exn .typeError ∧
    resultGet (function_pick dm233 (0, 0)) [1] = some (arr233.data [1, 0, 0]) ∧
    resultShape (function_pick dm233 (0, 0)) = some [2] ∧
    resultCals (function_pick dm233 (0, 0)) = some [⟨0, 1, "a"⟩] := by
  refine ⟨?_, ?_, ?_, ?_⟩ <;>
    norm_num [function_pick, pick_calculate_data, np_zeros, pytrunc, dm233, arr233,
      resultGet, resultData, resultShape, resultCals, new_data_and_metadata, Res.toOption,
      is_shape_and_dtype_valid, is_shape_and_dtype_rgb_type, is_shape_and_dtype_rgb,
      is_shape_and_dtype_rgba]

end NionData
